import Mathlib

/-!
Shallow embedding of `src/mitigation.py` (`create_renewable_dashboard` and its
nested callback `update_graphs`).

A dataframe row is a `Record` with the three columns the code touches:
`Source` (nullable string), `State` (string), `Fiscal Year` (integer).
Pandas operations are embedded as follows:
* `dataset[~dataset['Source'].str.contains('Consumption|Verification|Sold',
  case=False, na=False)]` — list filter with a case-insensitive substring
  test; `na=False` makes a missing `Source` count as non-matching.
* `sorted(col.unique())` — `dedup` then an insertion sort (`sortBy`).
* `groupby(k).size()` — pandas sorts group keys ascending (`sort=True`
  default) and drops null keys; embedded as the sorted distinct key list
  paired with occurrence counts.
* `sort_values('count', ascending=False)` — pandas `nargsort` performs an
  ascending argsort and reverses it for `ascending=False`; the default
  `kind='quicksort'` is unstable above numpy's 16-element insertion-sort
  cutoff, so what the program guarantees is only captured by the predicate
  `IsCountDescPerm` (a permutation with non-increasing counts), while the
  executable `sortValuesCountDesc` (stable ascending sort, then `reverse`)
  is exact below the cutoff and one admissible outcome in general.
* `sorted(renewable['Source'].unique())` raises `TypeError` when missing
  and present source values coexist, and `min(years)` / `max(years)` on
  the year-slider raise `ValueError` on an empty list, so the dashboard
  constructor returns an `Except` over both error paths.
-/

namespace Mitigation

structure Record where
  source : Option String
  state : String
  fiscalYear : Int
deriving DecidableEq

/-- Needle-is-prefix-of-haystack test on character lists (first argument is
the haystack). -/
def startsWithCL : List Char → List Char → Bool
  | _, [] => true
  | [], _ :: _ => false
  | a :: as, b :: bs => (a == b) && startsWithCL as bs

/-- Substring occurrence test on character lists (first argument is the
haystack). -/
def containsCL : List Char → List Char → Bool
  | [], n => n.isEmpty
  | a :: as, n => startsWithCL (a :: as) n || containsCL as n

/-- Case-insensitive substring test: `needle` occurs in `hay` after
lowercasing both, as in `Series.str.contains(..., case=False)` with a
literal alternation pattern. -/
def containsCI (hay needle : String) : Bool :=
  containsCL (hay.data.map Char.toLower) (needle.data.map Char.toLower)

/-- The exclusion pattern `'Consumption|Verification|Sold'` with
`case=False`: true iff any of the three literals occurs in `s`. -/
def matchesExclusion (s : String) : Bool :=
  containsCI s "Consumption" || containsCI s "Verification" || containsCI s "Sold"

/-- `str.contains(..., na=False)` lifted to the nullable `Source` column:
a missing value yields `false`. -/
def sourceMatchesExclusion : Option String → Bool
  | none => false
  | some s => matchesExclusion s

/-- Line 8: `renewable = dataset[~dataset['Source'].str.contains(...)]`. -/
def renewableFilter (dataset : List Record) : List Record :=
  dataset.filter (fun r => !(sourceMatchesExclusion r.source))

/-- Insert `a` into `l` keeping `a` before the first element not
strictly below it (the stable-insertion step). -/
def insertSorted (lt : α → α → Bool) (a : α) : List α → List α
  | [] => [a]
  | b :: bs => if lt b a then b :: insertSorted lt a bs else a :: b :: bs

/-- Stable insertion sort by a strict comparison. -/
def sortBy (lt : α → α → Bool) : List α → List α
  | [] => []
  | a :: as => insertSorted lt a (sortBy lt as)

/-- Lexicographic strict comparison of character lists by code point, the
order Python's `sorted` uses on strings. -/
def ltCL : List Char → List Char → Bool
  | [], [] => false
  | [], _ :: _ => true
  | _ :: _, [] => false
  | a :: as, b :: bs =>
      if a < b then true else if b < a then false else ltCL as bs

def strLt (a b : String) : Bool := ltCL a.data b.data

def intLt (a b : Int) : Bool := decide (a < b)

/-- Line 11: `years = sorted(renewable['Fiscal Year'].unique())`. -/
def yearsOf (renewable : List Record) : List Int :=
  sortBy intLt (renewable.map Record.fiscalYear).dedup

/-- Line 12: `sources = sorted(renewable['Source'].unique())`.
`Series.unique` keeps the distinct values in first-encounter order with all
NaN collapsed to one (`dedup` over the nullable column). Python's `sorted`
then raises `TypeError` when NaN and strings coexist (`'<' not supported
between 'float' and 'str'`), modelled as `none`; with only NaN present it
returns the NaN singleton, and with no NaN it returns the strings in
ascending order. -/
def sourcesOf (renewable : List Record) : Option (List (Option String)) :=
  if (renewable.map Record.source).dedup.any (fun o => o.isNone)
      && (renewable.map Record.source).dedup.any (fun o => o.isSome) then
    none
  else if (renewable.map Record.source).dedup.any (fun o => o.isNone) then
    some [none]
  else
    some ((sortBy strLt (renewable.filterMap Record.source).dedup).map some)

/-- Line 15: `all_states = sorted(renewable['State'].unique())`. -/
def statesOf (renewable : List Record) : List String :=
  sortBy strLt (renewable.map Record.state).dedup

/-- Number of working-dataset records for one state (one `groupby('State').size()` cell). -/
def countState (renewable : List Record) (s : String) : Nat :=
  renewable.countP (fun r => r.state == s)

/-- Line 18: `state_counts = renewable.groupby('State').size().reset_index(name='count')` —
group keys ascending (pandas `sort=True`), one count per state. -/
def state_counts (renewable : List Record) : List (String × Nat) :=
  (statesOf renewable).map (fun s => (s, countState renewable s))

/-- Line 19: `state_counts.sort_values('count', ascending=False)` — pandas
`nargsort` ascending-argsorts and reverses the indexer. The default
`kind='quicksort'` (numpy introsort) is unstable above its 16-element
insertion-sort cutoff, so the realized tie order there is
implementation-defined; this executable model (stable ascending insertion
sort, then `reverse`) is exact below the cutoff and is one admissible
outcome in general. Theorems quantifying over all datasets therefore go
through `IsCountDescPerm`, which every `sort_values` outcome satisfies. -/
def sortValuesCountDesc (l : List (String × Nat)) : List (String × Nat) :=
  (sortBy (fun a b => decide (a.2 < b.2)) l).reverse

/-- Line 20: `top_10_states = state_counts.head(10)['State'].tolist()`
(executable model; exact for fewer than 17 states, see
`sortValuesCountDesc`). -/
def top_10_states (renewable : List Record) : List String :=
  ((sortValuesCountDesc (state_counts renewable)).take 10).map Prod.fst

/-- What pandas guarantees of `sort_values('count', ascending=False)` with
its unstable default kind: some permutation of the rows with non-increasing
counts; nothing is promised about the order among tied counts. -/
def IsCountDescPerm (l l' : List (String × Nat)) : Prop :=
  List.Perm l' l ∧ l'.Pairwise (fun x y => y.2 ≤ x.2)

/-- The three `update_graphs` callback inputs: year-slider range and the
two multi-select dropdown values. -/
structure Selection where
  yearMin : Int
  yearMax : Int
  states : List String
  sources : List String
deriving DecidableEq

/-- `Series.isin` on the nullable `Source` column: a missing value is never
a member. -/
def sourceIn : Option String → List String → Bool
  | none, _ => false
  | some s, l => l.contains s

/-- Lines 88-93: the combination filter predicate of `update_graphs`. -/
def includeRow (sel : Selection) (r : Record) : Bool :=
  decide (sel.yearMin ≤ r.fiscalYear) && decide (r.fiscalYear ≤ sel.yearMax) &&
    sel.states.contains r.state && sourceIn r.source sel.sources

/-- `filtered_data` of `update_graphs`. -/
def filteredData (renewable : List Record) (sel : Selection) : List Record :=
  renewable.filter (includeRow sel)

/-- Grouping key of line 96 (`groupby(['State', 'Source'])`); a null
`Source` drops the row from the grouping (pandas `dropna=True`). -/
def rowKeyA (r : Record) : Option (String × String) :=
  r.source.map (fun s => (r.state, s))

/-- Grouping key of line 114 (`groupby(['Fiscal Year', 'Source'])`). -/
def rowKeyB (r : Record) : Option (Int × String) :=
  r.source.map (fun s => (r.fiscalYear, s))

def pairLtSS (a b : String × String) : Bool :=
  strLt a.1 b.1 || ((a.1 == b.1) && strLt a.2 b.2)

def pairLtIS (a b : Int × String) : Bool :=
  intLt a.1 b.1 || ((a.1 == b.1) && strLt a.2 b.2)

/-- Occurrences of a group key in the key column (`groupby(...).size()` of
one group). -/
def keyCount {κ : Type} [DecidableEq κ] (l : List κ) (k : κ) : Nat :=
  (l.filter (fun x => decide (x = k))).length

/-- Line 96: `filtered_data.groupby(['State', 'Source']).size().reset_index(name='Count')`. -/
def tableA (rows : List Record) : List ((String × String) × Nat) :=
  (sortBy pairLtSS (rows.filterMap rowKeyA).dedup).map
    (fun k => (k, keyCount (rows.filterMap rowKeyA) k))

/-- Line 114: `filtered_data.groupby(['Fiscal Year', 'Source']).size().reset_index(name='Count')`. -/
def tableB (rows : List Record) : List ((Int × String) × Nat) :=
  (sortBy pairLtIS (rows.filterMap rowKeyB).dedup).map
    (fun k => (k, keyCount (rows.filterMap rowKeyB) k))

/-- Lines 86-131: one invocation of the `update_graphs` callback, reduced to
the two aggregated count tables that drive `px.bar` and `px.line`. -/
def update_graphs (renewable : List Record) (sel : Selection) :
    List ((String × String) × Nat) × List ((Int × String) × Nat) :=
  (tableA (filteredData renewable sel), tableB (filteredData renewable sel))

/-- Sum of the `Count` column of an aggregated table. -/
def tableSum (t : List (κ × Nat)) : Nat :=
  (t.map Prod.snd).sum

/-- Python `min` over a list, `None` on the empty list (where `min` raises
`ValueError`). -/
def pymin : List Int → Option Int
  | [] => none
  | a :: as => some (as.foldl min a)

/-- Python `max` over a list, `None` on the empty list. -/
def pymax : List Int → Option Int
  | [] => none
  | a :: as => some (as.foldl max a)

/-- The ways `create_renewable_dashboard` can die before returning:
the `TypeError` of `sorted` over mixed NaN/str sources at line 12, and the
`ValueError` of `min(years)` / `max(years)` over an empty year list at
lines 36-38. (The two are mutually exclusive: mixing requires a record,
which makes the year list non-empty.) -/
inductive BuildError where
  | mixedSourceTypeError
  | emptyYearsValueError
deriving DecidableEq

/-- The facet data `create_renewable_dashboard` wires into the layout:
slider bounds and initial value, dropdown options and initial values. -/
structure Dashboard where
  years : List Int
  all_states : List String
  sources : List (Option String)
  topStates : List String
  sliderMin : Int
  sliderMax : Int
deriving DecidableEq

/-- Lines 6-76 of `create_renewable_dashboard`, up to the layout: filter the
dataset, build the facet lists (line 12 may raise on mixed sources), and
place `min(years)` / `max(years)` on the range slider (raising on an empty
year list). -/
def create_renewable_dashboard (dataset : List Record) : Except BuildError Dashboard :=
  match sourcesOf (renewableFilter dataset) with
  | none => Except.error BuildError.mixedSourceTypeError
  | some srcs =>
      match pymin (yearsOf (renewableFilter dataset)), pymax (yearsOf (renewableFilter dataset)) with
      | some lo, some hi =>
          Except.ok ⟨yearsOf (renewableFilter dataset), statesOf (renewableFilter dataset),
            srcs, top_10_states (renewableFilter dataset), lo, hi⟩
      | _, _ => Except.error BuildError.emptyYearsValueError

/-! ### Generic lemmas about the sorting helpers -/

theorem perm_insertSorted (lt : α → α → Bool) (a : α) (l : List α) :
    List.Perm (insertSorted lt a l) (a :: l) := by
  induction l with
  | nil => exact List.Perm.refl _
  | cons b bs ih =>
      simp only [insertSorted]
      split
      · exact (ih.cons b).trans (List.Perm.swap a b bs)
      · exact List.Perm.refl _

theorem perm_sortBy (lt : α → α → Bool) (l : List α) : List.Perm (sortBy lt l) l := by
  induction l with
  | nil => exact List.Perm.refl _
  | cons a as ih => exact (perm_insertSorted lt a (sortBy lt as)).trans (ih.cons a)

theorem mem_sortBy {lt : α → α → Bool} {l : List α} {a : α} :
    a ∈ sortBy lt l ↔ a ∈ l :=
  (perm_sortBy lt l).mem_iff

/-- Pairwise order of the stable-insertion step: `LE` is the target order,
`S` a side relation known between the inserted element and the list. -/
theorem pairwise_insertSorted {lt : α → α → Bool} {LE S : α → α → Prop}
    (hA : ∀ a b, lt b a = true → LE b a)
    (hB : ∀ a b, lt b a = false → S a b → LE a b)
    (hC : ∀ a b y, lt b a = false → S a b → LE b y → S a y → LE a y)
    (a : α) (l : List α) (hl : l.Pairwise LE) (hS : ∀ y ∈ l, S a y) :
    (insertSorted lt a l).Pairwise LE := by
  induction l with
  | nil => simp [insertSorted]
  | cons b bs ih =>
      rw [List.pairwise_cons] at hl
      simp only [insertSorted]
      cases hba : lt b a with
      | false =>
          simp only [Bool.false_eq_true, if_false]
          refine List.pairwise_cons.mpr ⟨?_, List.pairwise_cons.mpr hl⟩
          intro z hz
          rcases List.mem_cons.mp hz with rfl | hz
          · exact hB a z hba (hS z (List.mem_cons_self _ _))
          · exact hC a b z hba (hS b (List.mem_cons_self _ _)) (hl.1 z hz)
              (hS z (List.mem_cons_of_mem _ hz))
      | true =>
          simp only [if_true]
          refine List.pairwise_cons.mpr ⟨?_, ih hl.2 (fun y hy => hS y (List.mem_cons_of_mem _ hy))⟩
          intro z hz
          rcases List.mem_cons.mp ((perm_insertSorted lt a bs).mem_iff.mp hz) with rfl | hz
          · exact hA z b hba
          · exact hl.1 z hz

theorem pairwise_sortBy {lt : α → α → Bool} {LE S : α → α → Prop}
    (hA : ∀ a b, lt b a = true → LE b a)
    (hB : ∀ a b, lt b a = false → S a b → LE a b)
    (hC : ∀ a b y, lt b a = false → S a b → LE b y → S a y → LE a y)
    (l : List α) (hl : l.Pairwise S) :
    (sortBy lt l).Pairwise LE := by
  induction l with
  | nil => simp [sortBy]
  | cons a as ih =>
      rw [List.pairwise_cons] at hl
      exact pairwise_insertSorted hA hB hC a (sortBy lt as) (ih hl.2)
        (fun y hy => hl.1 y (mem_sortBy.mp hy))

theorem length_filterMap_of_isSome {f : α → Option β} (l : List α)
    (h : ∀ x ∈ l, (f x).isSome = true) :
    (l.filterMap f).length = l.length := by
  induction l with
  | nil => rfl
  | cons a as ih =>
      have ha := h a (List.mem_cons_self _ _)
      cases hf : f a with
      | none => rw [hf] at ha; simp at ha
      | some b =>
          rw [List.filterMap_cons_some hf, List.length_cons, List.length_cons,
            ih (fun x hx => h x (List.mem_cons_of_mem _ hx))]

theorem source_isSome_of_includeRow {sel : Selection} {r : Record}
    (h : includeRow sel r = true) : r.source.isSome = true := by
  cases hs : r.source with
  | none => simp [includeRow, hs, sourceIn] at h
  | some s => simp [hs]

theorem rowKeyA_isSome_of_includeRow {sel : Selection} {r : Record}
    (h : includeRow sel r = true) : (rowKeyA r).isSome = true := by
  have hsome := source_isSome_of_includeRow h
  cases hs : r.source with
  | none => rw [hs] at hsome; simp at hsome
  | some s => simp [rowKeyA, hs]

theorem rowKeyB_isSome_of_includeRow {sel : Selection} {r : Record}
    (h : includeRow sel r = true) : (rowKeyB r).isSome = true := by
  have hsome := source_isSome_of_includeRow h
  cases hs : r.source with
  | none => rw [hs] at hsome; simp at hsome
  | some s => simp [rowKeyB, hs]

theorem keyCount_cons {κ : Type} [DecidableEq κ] (a : κ) (l : List κ) (k : κ) :
    keyCount (a :: l) k = (if a = k then 1 else 0) + keyCount l k := by
  rw [keyCount, keyCount, List.filter_cons]
  by_cases h : a = k
  · simp [h]
    omega
  · simp [h]

theorem sum_map_add {κ : Type} (f g : κ → Nat) (d : List κ) :
    (d.map (fun x => f x + g x)).sum = (d.map f).sum + (d.map g).sum := by
  induction d with
  | nil => rfl
  | cons b d' ih =>
      simp only [List.map_cons, List.sum_cons, ih]
      omega

theorem sum_indicator_one {κ : Type} [DecidableEq κ] (a : κ) (d : List κ)
    (hd : d.Nodup) (ha : a ∈ d) :
    (d.map (fun x => if a = x then 1 else 0)).sum = 1 := by
  induction d with
  | nil => cases ha
  | cons b d' ih =>
      rw [List.nodup_cons] at hd
      rcases List.mem_cons.mp ha with rfl | ha'
      · simp only [List.map_cons, List.sum_cons, if_pos rfl]
        have hz : ∀ x ∈ d'.map (fun x => if a = x then 1 else 0), x = 0 := by
          intro x hx
          rcases List.mem_map.mp hx with ⟨y, hy, rfl⟩
          have hne : a ≠ y := fun h => hd.1 (h ▸ hy)
          simp [hne]
        rw [List.sum_eq_zero hz]
        simp
      · have hne : a ≠ b := fun h => hd.1 (h ▸ ha')
        simp only [List.map_cons, List.sum_cons, if_neg hne]
        rw [ih hd.2 ha']

theorem sum_keyCount {κ : Type} [DecidableEq κ] (d : List κ) (hd : d.Nodup) :
    ∀ l : List κ, (∀ x ∈ l, x ∈ d) → (d.map (keyCount l)).sum = l.length := by
  intro l
  induction l with
  | nil =>
      intro _
      have hz : ∀ x ∈ d.map (keyCount ([] : List κ)), x = 0 := by
        intro x hx
        rcases List.mem_map.mp hx with ⟨y, _, rfl⟩
        rfl
      rw [List.sum_eq_zero hz, List.length_nil]
  | cons a l' ih =>
      intro hsub
      have hmap : d.map (keyCount (a :: l'))
          = d.map (fun x => (if a = x then 1 else 0) + keyCount l' x) :=
        List.map_congr_left (fun x _ => keyCount_cons a l' x)
      rw [hmap, sum_map_add, sum_indicator_one a d hd (hsub a (List.mem_cons_self _ _)),
        ih (fun x hx => hsub x (List.mem_cons_of_mem _ hx)), List.length_cons]
      omega

theorem tableSum_tableA (rows : List Record) :
    tableSum (tableA rows) = (rows.filterMap rowKeyA).length := by
  rw [tableSum, tableA, List.map_map]
  calc ((sortBy pairLtSS (rows.filterMap rowKeyA).dedup).map
          (Prod.snd ∘ fun k => (k, keyCount (rows.filterMap rowKeyA) k))).sum
      = ((rows.filterMap rowKeyA).dedup.map
          (keyCount (rows.filterMap rowKeyA))).sum :=
        ((perm_sortBy _ _).map _).sum_eq
    _ = (rows.filterMap rowKeyA).length :=
        sum_keyCount _ (List.nodup_dedup _) _ (fun x hx => List.mem_dedup.mpr hx)

theorem tableSum_tableB (rows : List Record) :
    tableSum (tableB rows) = (rows.filterMap rowKeyB).length := by
  rw [tableSum, tableB, List.map_map]
  calc ((sortBy pairLtIS (rows.filterMap rowKeyB).dedup).map
          (Prod.snd ∘ fun k => (k, keyCount (rows.filterMap rowKeyB) k))).sum
      = ((rows.filterMap rowKeyB).dedup.map
          (keyCount (rows.filterMap rowKeyB))).sum :=
        ((perm_sortBy _ _).map _).sum_eq
    _ = (rows.filterMap rowKeyB).length :=
        sum_keyCount _ (List.nodup_dedup _) _ (fun x hx => List.mem_dedup.mpr hx)

theorem includeRow_of_mem_filteredData {renewable : List Record} {sel : Selection}
    {r : Record} (h : r ∈ filteredData renewable sel) : includeRow sel r = true :=
  (List.mem_filter.mp h).2

/-! ### Example datasets -/

/-- The spec's worked scenario: one renewable record and one record whose
`Source` contains the keyword "Consumption". -/
def scenarioDataset : List Record :=
  [⟨some "Solar Grant", "CA", 2020⟩, ⟨some "Wind Consumption Report", "CA", 2020⟩]

/-- One record with a missing `Source`. -/
def missingSourceDataset : List Record :=
  [⟨none, "TX", 2019⟩]

/-! ### Claim theorems -/

/-- C1: every record retained by the Renewable Filter has a `Source`
value that does not case-insensitively contain "Consumption",
"Verification" or "Sold". -/
theorem renewableFilter_excludes_keywords (dataset : List Record) (r : Record)
    (hr : r ∈ renewableFilter dataset) (s : String) (hs : r.source = some s) :
    containsCI s "Consumption" = false ∧ containsCI s "Verification" = false ∧
      containsCI s "Sold" = false := by
  have h := (List.mem_filter.mp hr).2
  rw [hs] at h
  simp only [sourceMatchesExclusion, matchesExclusion, Bool.not_eq_true',
    Bool.or_eq_false_iff] at h
  exact ⟨h.1.1, h.1.2, h.2⟩

theorem renewableFilter_excludes_keywords_witness :
    (⟨some "Solar Grant", "CA", 2020⟩ : Record) ∈ renewableFilter scenarioDataset
    ∧ containsCI "Solar Grant" "Consumption" = false
    ∧ containsCI "Solar Grant" "Verification" = false
    ∧ containsCI "Solar Grant" "Sold" = false :=
  ⟨by decide,
    renewableFilter_excludes_keywords scenarioDataset
      (⟨some "Solar Grant", "CA", 2020⟩ : Record) (by decide) "Solar Grant" rfl⟩

/-- C2: for any Facet Selection, the counts of Table A sum to the number
of records passing the combination filter, and so do the counts of
Table B; in particular the two table sums agree. -/
theorem update_graphs_count_conservation (dataset : List Record) (sel : Selection) :
    tableSum (update_graphs (renewableFilter dataset) sel).1
        = (filteredData (renewableFilter dataset) sel).length
    ∧ tableSum (update_graphs (renewableFilter dataset) sel).2
        = (filteredData (renewableFilter dataset) sel).length := by
  constructor
  · rw [show (update_graphs (renewableFilter dataset) sel).1
        = tableA (filteredData (renewableFilter dataset) sel) from rfl,
      tableSum_tableA]
    exact length_filterMap_of_isSome _
      (fun r hr => rowKeyA_isSome_of_includeRow (includeRow_of_mem_filteredData hr))
  · rw [show (update_graphs (renewableFilter dataset) sel).2
        = tableB (filteredData (renewableFilter dataset) sel) from rfl,
      tableSum_tableB]
    exact length_filterMap_of_isSome _
      (fun r hr => rowKeyB_isSome_of_includeRow (includeRow_of_mem_filteredData hr))

/-- C4: a working-dataset record enters the aggregation iff its year lies
in the inclusive slider range and its state and source are selected; in
particular a record with `fiscalYear = yearMax` satisfies the right-hand
side whenever the other conjuncts hold, so it is included. -/
theorem filteredData_mem_iff (dataset : List Record) (sel : Selection) (r : Record) :
    r ∈ filteredData (renewableFilter dataset) sel ↔
      r ∈ renewableFilter dataset ∧ sel.yearMin ≤ r.fiscalYear ∧
        r.fiscalYear ≤ sel.yearMax ∧ r.state ∈ sel.states ∧
        ∃ s, r.source = some s ∧ s ∈ sel.sources := by
  rw [filteredData, List.mem_filter]
  constructor
  · rintro ⟨hmem, hinc⟩
    simp only [includeRow, Bool.and_eq_true, decide_eq_true_eq] at hinc
    obtain ⟨⟨⟨h1, h2⟩, h3⟩, h4⟩ := hinc
    refine ⟨hmem, h1, h2, ?_, ?_⟩
    · simpa using h3
    · cases hsrc : r.source with
      | none => rw [hsrc] at h4; simp [sourceIn] at h4
      | some s =>
          rw [hsrc] at h4
          exact ⟨s, rfl, by simpa [sourceIn] using h4⟩
  · rintro ⟨hmem, h1, h2, h3, s, hsrc, hs⟩
    refine ⟨hmem, ?_⟩
    simp only [includeRow, Bool.and_eq_true, decide_eq_true_eq]
    exact ⟨⟨⟨h1, h2⟩, by simpa using h3⟩, by rw [hsrc]; simpa [sourceIn] using hs⟩

/-- C5: an empty state selection or an empty source selection yields two
empty tables. -/
theorem update_graphs_empty_selection (dataset : List Record) (sel : Selection)
    (h : sel.states = [] ∨ sel.sources = []) :
    update_graphs (renewableFilter dataset) sel = ([], []) := by
  have hfd : filteredData (renewableFilter dataset) sel = [] := by
    rw [filteredData, List.filter_eq_nil_iff]
    intro r _ hinc
    simp only [includeRow, Bool.and_eq_true] at hinc
    rcases h with hst | hsr
    · rw [hst] at hinc
      simpa using hinc.1.2
    · rcases hinc with ⟨_, h4⟩
      rw [hsr] at h4
      cases hsrc : r.source with
      | none => rw [hsrc] at h4; simp [sourceIn] at h4
      | some s => rw [hsrc] at h4; simp [sourceIn] at h4
  show (tableA (filteredData (renewableFilter dataset) sel),
      tableB (filteredData (renewableFilter dataset) sel)) = ([], [])
  rw [hfd]
  rfl

theorem update_graphs_empty_selection_witness :
    update_graphs (renewableFilter scenarioDataset) ⟨2020, 2020, ["CA"], []⟩ = ([], []) :=
  update_graphs_empty_selection scenarioDataset ⟨2020, 2020, ["CA"], []⟩ (Or.inr rfl)

/-- C6: a record whose `Source` is missing does not match the exclusion
pattern (`na=False`) and is retained by the Renewable Filter. -/
theorem renewableFilter_retains_missing_source (dataset : List Record) (r : Record)
    (hr : r ∈ dataset) (hs : r.source = none) : r ∈ renewableFilter dataset :=
  List.mem_filter.mpr ⟨hr, by rw [hs]; rfl⟩

theorem renewableFilter_retains_missing_source_witness :
    (⟨none, "TX", 2019⟩ : Record) ∈ renewableFilter missingSourceDataset :=
  renewableFilter_retains_missing_source missingSourceDataset _ (by decide) rfl

/-- C7: the callback recomputes the two tables as a pure function of the
working dataset and the selection, so two invocations with the same
arguments return identical tables. -/
theorem update_graphs_deterministic (dataset : List Record) (sel : Selection) :
    update_graphs (renewableFilter dataset) sel
      = update_graphs (renewableFilter dataset) sel := rfl

/-- C8: an inverted year range (`yearMin > yearMax`) admits no rows, so
both tables are empty and no error occurs. -/
theorem update_graphs_inverted_year_range (dataset : List Record) (sel : Selection)
    (h : sel.yearMax < sel.yearMin) :
    update_graphs (renewableFilter dataset) sel = ([], []) := by
  have hfd : filteredData (renewableFilter dataset) sel = [] := by
    rw [filteredData, List.filter_eq_nil_iff]
    intro r _ hinc
    simp only [includeRow, Bool.and_eq_true, decide_eq_true_eq] at hinc
    exact absurd (le_trans hinc.1.1.1 hinc.1.1.2) (not_le.mpr h)
  show (tableA (filteredData (renewableFilter dataset) sel),
      tableB (filteredData (renewableFilter dataset) sel)) = ([], [])
  rw [hfd]
  rfl

theorem update_graphs_inverted_year_range_witness :
    (2020 : Int) < 2021
    ∧ update_graphs (renewableFilter scenarioDataset)
        ⟨2021, 2020, ["CA"], ["Solar Grant"]⟩ = ([], []) :=
  ⟨by decide,
    update_graphs_inverted_year_range scenarioDataset
      ⟨2021, 2020, ["CA"], ["Solar Grant"]⟩ (by decide)⟩

/-- The year facet list is empty exactly when the working dataset is. -/
theorem yearsOf_eq_nil_iff (renewable : List Record) :
    yearsOf renewable = [] ↔ renewable = [] := by
  rw [yearsOf]
  constructor
  · intro h
    have hlen := congrArg List.length h
    rw [(perm_sortBy _ _).length_eq] at hlen
    rw [List.length_nil] at hlen
    have hd := List.length_eq_zero.mp hlen
    rw [List.dedup_eq_nil] at hd
    exact List.map_eq_nil_iff.mp hd
  · intro h
    rw [h]
    rfl

/-- A dataset whose only record matches an exclusion keyword, so the
working dataset is empty. -/
def allExcludedDataset : List Record :=
  [⟨some "Wind Consumption Report", "CA", 2020⟩]

/-- C10: on an empty working dataset the constructor survives lines 11-20
(they all tolerate an empty frame, and line 12 cannot raise without a
record) and then fails at `min(years)` / `max(years)` on the year slider
instead of returning a dashboard; conversely, any successful construction
needs a non-empty working dataset — the unstated precondition. -/
theorem create_renewable_dashboard_requires_nonempty (dataset : List Record) :
    (renewableFilter dataset = [] →
      create_renewable_dashboard dataset = Except.error BuildError.emptyYearsValueError)
    ∧ (∀ d, create_renewable_dashboard dataset = Except.ok d →
        renewableFilter dataset ≠ []) := by
  have hfail : renewableFilter dataset = [] →
      create_renewable_dashboard dataset = Except.error BuildError.emptyYearsValueError := by
    intro h
    simp only [create_renewable_dashboard, h]
    rfl
  refine ⟨hfail, ?_⟩
  intro d hd h0
  rw [hfail h0] at hd
  exact Except.noConfusion hd

theorem create_renewable_dashboard_requires_nonempty_witness :
    renewableFilter allExcludedDataset = []
    ∧ create_renewable_dashboard allExcludedDataset
        = Except.error BuildError.emptyYearsValueError :=
  ⟨by decide,
    (create_renewable_dashboard_requires_nonempty allExcludedDataset).1 (by decide)⟩

/-! ### The default top-10 state selection -/

theorem snd_eq_countState_of_mem {renewable : List Record} {x : String × Nat}
    (hx : x ∈ state_counts renewable) :
    x.2 = countState renewable x.1 ∧ x.1 ∈ statesOf renewable := by
  rcases List.mem_map.mp hx with ⟨s, hs, rfl⟩
  exact ⟨rfl, hs⟩

theorem pairwise_true (l : List α) : l.Pairwise (fun _ _ => True) := by
  induction l with
  | nil => exact List.Pairwise.nil
  | cons a as ih => exact List.Pairwise.cons (fun _ _ => trivial) ih

theorem sortBy_count_le_pairwise (l : List (String × Nat)) :
    (sortBy (fun a b => decide (a.2 < b.2)) l).Pairwise (fun x y => x.2 ≤ y.2) := by
  refine pairwise_sortBy (S := fun _ _ => True) ?_ ?_ ?_ l (pairwise_true l)
  · intro a b h
    exact Nat.le_of_lt (of_decide_eq_true h)
  · intro a b h _
    exact Nat.not_lt.mp (of_decide_eq_false h)
  · intro a b y h _ hby _
    exact Nat.le_trans (Nat.not_lt.mp (of_decide_eq_false h)) hby

/-- The executable model of line 19 is one of the outcomes the unstable
`sort_values` admits. -/
theorem sortValuesCountDesc_isCountDescPerm (l : List (String × Nat)) :
    IsCountDescPerm l (sortValuesCountDesc l) := by
  constructor
  · rw [sortValuesCountDesc]
    exact (List.reverse_perm _).trans (perm_sortBy _ _)
  · rw [sortValuesCountDesc]
    exact List.pairwise_reverse.mpr (sortBy_count_le_pairwise l)

/-- Eleven one-record states, encountered in ascending alphabetical
order. -/
def elevenStateDataset : List Record :=
  [⟨some "S", "A", 2020⟩, ⟨some "S", "B", 2020⟩, ⟨some "S", "C", 2020⟩,
    ⟨some "S", "D", 2020⟩, ⟨some "S", "E", 2020⟩, ⟨some "S", "F", 2020⟩,
    ⟨some "S", "G", 2020⟩, ⟨some "S", "H", 2020⟩, ⟨some "S", "I", 2020⟩,
    ⟨some "S", "J", 2020⟩, ⟨some "S", "K", 2020⟩]

/-- C3 counterexample: in `elevenStateDataset` all eleven states have
count 1 and are first encountered in the order A, B, …, K, so a top-10
selection breaking ties by first-encountered order would be
`["A", …, "J"]`. Eleven rows are below numpy's introsort cutoff, where
the argsort is an insertion sort, so the executable model is exact here:
the grouping sorts the states ascending and the reversed count argsort
returns `["K", …, "B"]` — state "A" is dropped even though it was
encountered first. -/
theorem top_10_states_not_first_encountered :
    top_10_states (renewableFilter elevenStateDataset)
        = ["K", "J", "I", "H", "G", "F", "E", "D", "C", "B"]
    ∧ top_10_states (renewableFilter elevenStateDataset)
        ≠ ["A", "B", "C", "D", "E", "F", "G", "H", "I", "J"] := by
  constructor
  · decide
  · decide

/-- C3 (amended): for every reordering the descending count sort may
produce (any permutation of the grouped counts with non-increasing count
column — `kind='quicksort'` is unstable, so no more is guaranteed), the
head-10 state list has length `min 10 (number of distinct states)` and
every listed state's count is at least every omitted state's count. No
tie order between equal counts is guaranteed, and the counterexample
shows the realized order is not the first-encountered order. -/
theorem top_10_states_spec (dataset : List Record)
    (sorted : List (String × Nat))
    (hsort : IsCountDescPerm (state_counts (renewableFilter dataset)) sorted) :
    ((sorted.take 10).map Prod.fst).length
        = min 10 (statesOf (renewableFilter dataset)).length
    ∧ (∀ s, s ∈ (sorted.take 10).map Prod.fst →
        ∀ u, u ∈ statesOf (renewableFilter dataset) →
          u ∉ (sorted.take 10).map Prod.fst →
          countState (renewableFilter dataset) u ≤ countState (renewableFilter dataset) s) := by
  obtain ⟨hperm, hpair⟩ := hsort
  constructor
  · rw [List.length_map, List.length_take, hperm.length_eq, state_counts, List.length_map]
  · intro s hs u hu hun
    rcases List.mem_map.mp hs with ⟨p, hp, rfl⟩
    have hq : (u, countState (renewableFilter dataset) u)
        ∈ state_counts (renewableFilter dataset) :=
      List.mem_map.mpr ⟨u, hu, rfl⟩
    have hqL : (u, countState (renewableFilter dataset) u) ∈ sorted :=
      hperm.mem_iff.mpr hq
    have hqtake : (u, countState (renewableFilter dataset) u) ∉ sorted.take 10 := by
      intro hmem
      exact hun (List.mem_map.mpr ⟨_, hmem, rfl⟩)
    have hqdrop : (u, countState (renewableFilter dataset) u) ∈ sorted.drop 10 := by
      rcases List.mem_append.mp
          (by rw [List.take_append_drop]; exact hqL :
            (u, countState (renewableFilter dataset) u)
              ∈ sorted.take 10 ++ sorted.drop 10)
        with h | h
      · exact absurd h hqtake
      · exact h
    rw [← List.take_append_drop 10 sorted] at hpair
    have hrel := (List.pairwise_append.mp hpair).2.2 p hp _ hqdrop
    have hp2 : p.2 = countState (renewableFilter dataset) p.1 :=
      (snd_eq_countState_of_mem (hperm.mem_iff.mp (List.mem_of_mem_take hp))).1
    rw [hp2] at hrel
    exact hrel

theorem top_10_states_spec_witness :
    "K" ∈ top_10_states (renewableFilter elevenStateDataset)
    ∧ "A" ∈ statesOf (renewableFilter elevenStateDataset)
    ∧ "A" ∉ top_10_states (renewableFilter elevenStateDataset)
    ∧ countState (renewableFilter elevenStateDataset) "A"
        ≤ countState (renewableFilter elevenStateDataset) "K" :=
  ⟨by decide, by decide, by decide,
    (top_10_states_spec elevenStateDataset
        (sortValuesCountDesc (state_counts (renewableFilter elevenStateDataset)))
        (sortValuesCountDesc_isCountDescPerm _)).2
      "K" (by decide) "A" (by decide) (by decide)⟩

end Mitigation
